import Mathlib

/-!
Verification development for the `explicit-error` crate core
(`src/explicit-error/src/{error.rs, fault.rs, domain.rs, lib.rs}` and the
concrete `Domain` implementation `DomainError`/`ExitError` of
`src/explicit-error-exit/src/{domain.rs, error.rs}`).

Modelling conventions:
- `Box<dyn std::error::Error + 'static>` values are modelled by the
  inductive `DynError`: a runtime type tag (`ty`, standing for `TypeId`),
  a `Display` rendering (`disp`), a `Debug` rendering (`dbg`), and an
  optional nested `source` (`src`).  `downcast`/`is` compare type tags.
- `std::backtrace::Backtrace` is modelled by its observable status plus
  its rendered text.  `Backtrace::capture()` is modelled for the default
  environment (RUST_BACKTRACE unset), where its status is `Disabled`,
  which is also what the crate's own tests assert.
- Rust `Result<T, E>` is `Except E T`; `Option<T>` is `Option T`.
- A Rust function that can panic is modelled with an `Option` layer:
  `none` is a panic, `some r` a normal return; `unwrap`/`unwrap_fault`
  return `Except String` where `Except.error msg` is a panic carrying the
  panic message built by `unwrap_failed`.
-/

/-- The observable status of a backtrace, `std::backtrace::BacktraceStatus`
restricted to the two states reachable through `capture`/`force_capture`
in this model. -/
inductive BacktraceStatus : Type where
  | Disabled : BacktraceStatus
  | Captured : BacktraceStatus
deriving DecidableEq, Repr

/-- Model of `std::backtrace::Backtrace`: the observable status together
with the rendered backtrace text. -/
structure Backtrace : Type where
  status : BacktraceStatus
  text : String
deriving DecidableEq, Repr

/-- The backtrace text produced by a forced capture.  The real text is
environment dependent; the claims below depend only on the status, so a
fixed placeholder is used. -/
def captured_backtrace_text : String := "stack backtrace: <frames>"

/-- `Backtrace::capture()` in the default environment (RUST_BACKTRACE
unset): status `Disabled`, empty text. -/
def Backtrace.capture : Backtrace := ⟨BacktraceStatus.Disabled, ""⟩

/-- `Backtrace::force_capture()`: status `Captured`. -/
def Backtrace.force_capture : Backtrace :=
  ⟨BacktraceStatus.Captured, captured_backtrace_text⟩

/-- Model of a boxed `dyn std::error::Error + 'static` value: runtime type
tag, `Display` text, `Debug` text, and the optional nested
`source()`. -/
inductive DynError : Type where
  | mk (ty : Nat) (disp : String) (dbg : String) (src : Option DynError)

/-- Runtime type tag (`TypeId`) of the concrete value behind the trait
object. -/
def DynError.ty : DynError → Nat
  | .mk t _ _ _ => t

/-- `Display` rendering of the value. -/
def DynError.disp : DynError → String
  | .mk _ d _ _ => d

/-- `Debug` rendering of the value. -/
def DynError.dbg : DynError → String
  | .mk _ _ d _ => d

/-- `std::error::Error::source()` of the value. -/
def DynError.src : DynError → Option DynError
  | .mk _ _ _ s => s

/-- `<dyn Error>::is::<S>()`: runtime type-identity check against the type
with tag `tag`. -/
def DynError.is (tag : Nat) (e : DynError) : Bool := e.ty == tag

/-- `Box<dyn Error>::downcast::<S>()` collapsed to the model: `ok` with the
concrete value on a type match, `error` returning the box otherwise. -/
def DynError.downcastE (tag : Nat) (e : DynError) : Except DynError DynError :=
  if e.ty == tag then Except.ok e else Except.error e

/-- `<dyn Error>::downcast_ref::<S>()`-style downcast returning an
option. -/
def DynError.downcast (tag : Nat) (e : DynError) : Option DynError :=
  if e.ty == tag then some e else none

/-- `errors_chain_debug` of `error.rs`: the `Debug` rendering of the error
followed by `->` and the `Debug` rendering of each element of its source
chain. -/
def errors_chain_debug : DynError → String
  | .mk _ _ dbg none => dbg
  | .mk _ _ dbg (some s) => dbg ++ "->" ++ errors_chain_debug s

/-- The `Fault` struct of `fault.rs`: an optional boxed source, a
backtrace, and an optional context string. -/
structure Fault : Type where
  source : Option DynError
  backtrace : Backtrace
  context : Option String

/-- `Fault::new()`: no source, `Backtrace::capture()`, no context. -/
def Fault.new : Fault := ⟨none, Backtrace.capture, none⟩

/-- `Fault::new_force()`: no source, `Backtrace::force_capture()`, no
context. -/
def Fault.new_force : Fault := ⟨none, Backtrace.force_capture, none⟩

/-- `Fault::with_source(error)`: set the source, keep backtrace and
context. -/
def Fault.with_source (f : Fault) (e : DynError) : Fault :=
  ⟨some e, f.backtrace, f.context⟩

/-- `Fault::with_context(context)`: keep source and backtrace, replace the
context with the new text. -/
def Fault.with_context (f : Fault) (c : String) : Fault :=
  ⟨f.source, f.backtrace, some c⟩

/-- `impl StdError for Fault`: `source()` returns the source field. -/
def Fault.sourceStd (f : Fault) : Option DynError := f.source

/-- `impl Display for Fault` of `fault.rs`: one `write!` concatenating a
backtrace part (text and separator when the status is `Captured`, empty
otherwise), a context part (`Context: <text>\n` when set, empty
otherwise), and a source part (`Source: <chain debug>, <display>\n` when
set, empty otherwise). -/
def Fault.display (f : Fault) : String :=
  (match f.backtrace.status with
    | BacktraceStatus.Captured =>
        f.backtrace.text ++ "\n ----------------------- \n\n"
    | _ => "") ++
  (match f.context with
    | some c => "Context: " ++ c ++ "\n"
    | none => "") ++
  (match f.source with
    | some s => "Source: " ++ errors_chain_debug s ++ ", " ++ s.disp ++ "\n"
    | none => "")

/-- `derive(Debug)` rendering of `Fault`, modelled: names the struct and
its fields. -/
def Fault.debug (f : Fault) : String :=
  "Fault \x7b source: " ++
  (match f.source with
    | some s => "Some(" ++ s.dbg ++ ")"
    | none => "None") ++
  ", backtrace: Backtrace, context: " ++
  (match f.context with
    | some c => "Some(\x22" ++ c ++ "\x22)"
    | none => "None") ++
  " \x7d"

/-- Runtime type tag of the concrete type `Fault` itself (used when a
`Fault` value is boxed as a `dyn Error`). -/
def faultTag : Nat := 1001

/-- A `Fault` coerced to `Box<dyn Error>`: carries `Fault`'s type tag, its
`Display`/`Debug` renderings and its `source()`. -/
def Fault.toDyn (f : Fault) : DynError :=
  DynError.mk faultTag (Fault.display f) (Fault.debug f) f.source

/-- The `Domain` trait of `domain.rs` together with the obligations its
bound carries (`Self: std::error::Error + 'static + Debug +
Into<Error<Self>>`): context override, surrender of the source
(`into_source`), the `StdError` view (`source`, `disp`, `dbg`), the
conversion into the `Error` container, the boxed `dyn Error` view, and
the context accessor.  The `context` accessor is not in the `src`
snapshot of the trait (only its caller `Error::context` is); it is
modelled from the spec: "context accessor/override, uniform across both
cases". -/
class Domain (D : Type) where
  with_context : D → String → D
  into_source : D → Option DynError
  source : D → Option DynError
  context : D → Option String
  intoError : D → Fault ⊕ D
  toDyn : D → DynError
  debug : D → String

/-- Alias for the `Domain` class, usable inside the `Error` namespace
where the bare name `Domain` denotes the `Error.Domain` constructor. -/
abbrev DomainTrait (D : Type) := Domain D

/-- Alias for the `Fault` struct, usable inside the `Error` namespace
where the bare name `Fault` denotes the `Error.Fault` constructor. -/
abbrev FaultTy : Type := Fault

/-- The `Error<D>` enum of `error.rs`: `Domain(Box<D>)` or
`Fault(Fault)`. -/
inductive Error (D : Type) : Type where
  | Domain (d : D)
  | Fault (f : Fault)

/-- `D: Into<Error<Self>>` applied: the instance's conversion of a
domain value into the `Error` container. -/
def Domain.intoErr {D : Type} [Domain D] (d : D) : Error D :=
  match Domain.intoError d with
  | Sum.inl f => Error.Fault f
  | Sum.inr d2 => Error.Domain d2

/-- `Error::is_domain`. -/
def Error.is_domain {D : Type} : Error D → Bool
  | .Domain _ => true
  | .Fault _ => false

/-- `Error::is_fault`: the negation of `is_domain`. -/
def Error.is_fault {D : Type} (e : Error D) : Bool := !e.is_domain

/-- `unwrap_failed` of `lib.rs`: the panic message `"{msg}: {error:?}"`. -/
def unwrap_failed (msg : String) (dbg : String) : String := msg ++ ": " ++ dbg

/-- `Error::unwrap`: return the `Domain` value, panic (modelled as
`Except.error` carrying the panic message) on the `Fault` variant. -/
def Error.unwrap {D : Type} [DomainTrait D] : Error D → Except String D
  | .Domain d => Except.ok d
  | .Fault f =>
      Except.error (unwrap_failed "called `Error::unwrap()` on an `Fault` value" (Fault.debug f))

/-- `Error::unwrap_fault`: return the `Fault`, panic (modelled as
`Except.error` carrying the panic message) on the `Domain` variant. -/
def Error.unwrap_fault {D : Type} [DomainTrait D] : Error D → Except String FaultTy
  | .Fault f => Except.ok f
  | .Domain d =>
      Except.error (unwrap_failed "called `Error::unwrap_err()` on an `Domain` value" (Domain.debug d))

/-- `impl StdError for Error<D>`: `source()` returns the inner value's
source when set, otherwise the inner value itself. -/
def Error.sourceStd {D : Type} [DomainTrait D] : Error D → Option DynError
  | .Domain d =>
      match Domain.source d with
      | some s => some s
      | none => some (Domain.toDyn d)
  | .Fault f =>
      match f.source with
      | some s => some s
      | none => some (Fault.toDyn f)

/-- `Error::downcast_source::<E>`: on `Domain`, when `source()` is set,
downcast the surrendered `into_source()` value (an `unwrap` that panics
if `into_source` disagrees and returns `None` — modelled by the outer
`Option`); otherwise downcast the domain value itself.  On `Fault`, the
same against the `Fault`'s source field, else the boxed `Fault`. -/
def Error.downcast_source {D : Type} [DomainTrait D] (tag : Nat) :
    Error D → Option (Except DynError DynError)
  | .Domain d =>
      match Domain.source d with
      | some _ =>
          match Domain.into_source d with
          | some src => some (DynError.downcastE tag src)
          | none => none
      | none => some (DynError.downcastE tag (Domain.toDyn d))
  | .Fault f =>
      match f.source with
      | some s => some (DynError.downcastE tag s)
      | none => some (DynError.downcastE tag (Fault.toDyn f))

/-- `Error::with_context`: rebuild the same variant with the inner
value's context replaced (`Domain::with_context` resp.
`Fault::with_context`). -/
def Error.with_context {D : Type} [DomainTrait D] (e : Error D) (c : String) : Error D :=
  match e with
  | .Domain d => Error.Domain (Domain.with_context d c)
  | .Fault f => Error.Fault (Fault.with_context f c)

/-- `Error::context`: the inner value's context, for either variant. -/
def Error.context {D : Type} [DomainTrait D] : Error D → Option String
  | .Domain d => Domain.context d
  | .Fault f => f.context

/-- The source immediately held behind an `Error`: the `StdError`
`source()` of the `Domain` value, resp. the `Fault`'s source field.
These are exactly the values the guards of `try_map_on_source` and
`downcast_source` inspect. -/
def Error.immediate_source {D : Type} [DomainTrait D] : Error D → Option DynError
  | .Domain d => Domain.source d
  | .Fault f => f.source

/-- `ResultError::try_map_on_source` of `error.rs`.  `sTag` is the type
tag of the closure's parameter type `S`; `op` is the closure already
composed with the `E: Into<Error<D>>` conversion of its result.  On an
`Err(Error::Domain)` whose `source()` is present and of type `S`, the
surrendered `into_source()` value is unwrapped and downcast (each
`unwrap` a potential panic, modelled by the outer `Option`); on an
`Err(Error::Fault)` the same against the `Fault`'s source field;
otherwise the original value is returned. -/
def try_map_on_source {T D : Type} [Domain D] (sTag : Nat) (op : DynError → Error D) :
    Except (Error D) T → Option (Except (Error D) T)
  | .ok a => some (.ok a)
  | .error (.Domain d) =>
      match Domain.source d with
      | some s =>
          if DynError.is sTag s then
            match Domain.into_source d with
            | some src =>
                match DynError.downcast sTag src with
                | some v => some (.error (op v))
                | none => none
            | none => none
          else some (.error (Error.Domain d))
      | none => some (.error (Error.Domain d))
  | .error (.Fault b) =>
      match b.source with
      | some s =>
          if DynError.is sTag s then
            match DynError.downcast sTag s with
            | some v => some (.error (op v))
            | none => none
          else some (.error (Error.Fault b))
      | none => some (.error (Error.Fault b))

/-- `ResultError::with_context` of `error.rs`: on `Err`, replace the
context of the inner value and convert back with the `Into<Error<D>>`
conversions (`Domain::intoErr` for `D`, the `From<Fault>` conversion for
`Fault`). -/
def result_with_context {T D : Type} [Domain D] (c : String) :
    Except (Error D) T → Except (Error D) T
  | .ok a => .ok a
  | .error (.Domain d) => .error (Domain.intoErr (Domain.with_context d c))
  | .error (.Fault f) => .error (Error.Fault (Fault.with_context f c))

/-- `ResultFault::map_err_or_fault` of `error.rs`: `intoE` is the
`E: Into<Error<D>>` conversion, `op` the classifier closure
`FnOnce(S) -> Result<E, S>`.  `Ok` passes through; on `Err(error)` the
classifier's `Ok` result is converted, and its `Err` result becomes the
source of a fresh `Fault::new()`. -/
def map_err_or_fault {T E D : Type} [Domain D] (intoE : E → Error D)
    (op : DynError → Except DynError E) :
    Except DynError T → Except (Error D) T
  | .ok a => .ok a
  | .error err =>
      .error (match op err with
        | .ok d => intoE d
        | .error e => Error.Fault (Fault.with_source Fault.new e))

/-- `ResultFault::or_fault_no_source`: any `Err` becomes `Fault::new()`,
discarding the error. -/
def or_fault_no_source {T S : Type} : Except S T → Except Fault T
  | .ok a => .ok a
  | .error _ => .error Fault.new

/-- `ResultFault::or_fault_no_source_force`: any `Err` becomes
`Fault::new_force()`, discarding the error. -/
def or_fault_no_source_force {T S : Type} : Except S T → Except Fault T
  | .ok a => .ok a
  | .error _ => .error Fault.new_force

/-- `ResultFault::or_fault`: an `Err` becomes `Fault::new()` with the
error as source. -/
def or_fault {T : Type} : Except DynError T → Except Fault T
  | .ok a => .ok a
  | .error e => .error (Fault.with_source Fault.new e)

/-- `ResultFault::or_fault_force`: an `Err` becomes `Fault::new_force()`
with the error as source. -/
def or_fault_force {T : Type} : Except DynError T → Except Fault T
  | .ok a => .ok a
  | .error e => .error (Fault.with_source Fault.new_force e)

/-- `OptionFault::ok_or_fault`: `Some(v)` to `Ok(v)`, `None` to
`Err(Fault::new())`. -/
def ok_or_fault {T : Type} : Option T → Except Fault T
  | some a => .ok a
  | none => .error Fault.new

/-- `OptionFault::ok_or_fault_force`: `Some(v)` to `Ok(v)`, `None` to
`Err(Fault::new_force())`. -/
def ok_or_fault_force {T : Type} : Option T → Except Fault T
  | some a => .ok a
  | none => .error Fault.new_force

/-- `ResultFaultWithContext::with_context` of `error.rs`: replace the
context of a `Fault` wrapped in `Err`. -/
def result_fault_with_context {T : Type} (c : String) : Except Fault T → Except Fault T
  | .ok a => .ok a
  | .error f => .error (Fault.with_context f c)

/-- The `ExitError` struct of `explicit-error-exit/src/error.rs`: a
message, an exit code (modelled as `Nat`), and an optional context. -/
structure ExitError : Type where
  message : String
  exit_code : Nat
  context : Option String

/-- `ExitError::new`: message and exit code, no context. -/
def ExitError.new (message : String) (exit_code : Nat) : ExitError :=
  ⟨message, exit_code, none⟩

/-- `ExitError::with_context`: replace the context, keep the rest. -/
def ExitError.with_context (e : ExitError) (c : String) : ExitError :=
  ⟨e.message, e.exit_code, some c⟩

/-- `impl Display for ExitError`: the message. -/
def ExitError.display (e : ExitError) : String := e.message

/-- The `DomainError` struct of `explicit-error-exit/src/domain.rs`: an
`ExitError` output plus an optional boxed source. -/
structure DomainError : Type where
  output : ExitError
  source : Option DynError

/-- `impl Domain for DomainError`: `with_context` forwards to the
output's `with_context`, leaving the source untouched. -/
def DomainError.with_context (d : DomainError) (c : String) : DomainError :=
  ⟨d.output.with_context c, d.source⟩

/-- `impl Domain for DomainError`: `into_source` surrenders the source
field. -/
def DomainError.into_source (d : DomainError) : Option DynError := d.source

/-- `impl StdError for DomainError`: `source()` returns the source
field. -/
def DomainError.sourceStd (d : DomainError) : Option DynError := d.source

/-- Modelled from the spec: the `context` accessor of `DomainError`,
called by `Error::context` but absent from the `src` snapshot.  Per the
spec's "context accessor/override, uniform across both cases" and
`ExitError::with_context` storing the text in the `context` field, it
reads the output's context. -/
def DomainError.context (d : DomainError) : Option String := d.output.context

/-- `impl Display for DomainError`: the output's display, i.e. the
message. -/
def DomainError.display (d : DomainError) : String := d.output.display

/-- `derive(Debug)` rendering of `DomainError`, modelled. -/
def DomainError.debug (d : DomainError) : String :=
  "DomainError \x7b output: ExitError \x7b message: \x22" ++ d.output.message ++
  "\x22 \x7d, source: " ++
  (match d.source with
    | some s => "Some(" ++ s.dbg ++ ")"
    | none => "None") ++
  " \x7d"

/-- Runtime type tag of the concrete type `DomainError`. -/
def domainErrorTag : Nat := 1000

/-- A `DomainError` coerced to `Box<dyn Error>`. -/
def DomainError.toDyn (d : DomainError) : DynError :=
  DynError.mk domainErrorTag d.display d.debug d.source

/-- `From<DomainError> for Error<DomainError>` of
`explicit-error-exit/src/domain.rs`: wrap in the `Domain` variant. -/
instance : Domain DomainError where
  with_context := DomainError.with_context
  into_source := DomainError.into_source
  source := DomainError.sourceStd
  context := DomainError.context
  intoError := fun d => Sum.inr d
  toDyn := DomainError.toDyn
  debug := DomainError.debug

/-- `From<ExitError> for Error<DomainError>` of
`explicit-error-exit/src/error.rs`: wrap in a `DomainError` with no
source, then in the `Domain` variant. -/
def ExitError.intoErr (e : ExitError) : Error DomainError :=
  Error.Domain (DomainError.mk e none)

theorem domain_with_context_eq (d : DomainError) (c : String) :
    Domain.with_context d c = DomainError.with_context d c := rfl

theorem domain_source_eq (d : DomainError) :
    Domain.source d = d.source := rfl

theorem domain_into_source_eq (d : DomainError) :
    Domain.into_source d = d.source := rfl

theorem domain_context_eq (d : DomainError) :
    Domain.context d = d.output.context := rfl

/-- C4: for every Fault and every Error value (at the crate's concrete
`Domain` type `DomainError`), two successive `with_context` calls leave
exactly the second text as the observable context: the last call wins,
nothing is appended. -/
theorem with_context_last_write_wins :
    (∀ (f : Fault) (a b : String),
      ((f.with_context a).with_context b).context = some b) ∧
    (∀ (e : Error DomainError) (a b : String),
      ((e.with_context a).with_context b).context = some b) := by
  constructor
  · intro f a b
    rfl
  · intro e a b
    cases e with
    | Domain d => rfl
    | Fault f => rfl

/-- C5: `Error::with_context` preserves the active variant
(`is_domain`/`is_fault` unchanged) for every Error value over any Domain
type, and `Fault::with_context` leaves the source and backtrace fields
exactly as they were, modifying only the context field. -/
theorem with_context_preserves_case_and_frame (D : Type) [DomainTrait D] :
    (∀ (e : Error D) (c : String),
      (e.with_context c).is_domain = e.is_domain ∧
      (e.with_context c).is_fault = e.is_fault) ∧
    (∀ (f : Fault) (c : String),
      (f.with_context c).source = f.source ∧
      (f.with_context c).backtrace = f.backtrace ∧
      (f.with_context c).context = some c) := by
  constructor
  · intro e c
    cases e with
    | Domain d => exact ⟨rfl, rfl⟩
    | Fault f => exact ⟨rfl, rfl⟩
  · intro f c
    exact ⟨rfl, rfl, rfl⟩

/-- C6: `Error::unwrap` on a `Domain` value returns exactly that value
and `Error::unwrap_fault` on a `Fault` returns exactly that `Fault`; the
mismatched calls panic (modelled as `Except.error`) with the
`unwrap_failed` diagnostic whose message names the case actually found
(`Fault` resp. `Domain`). -/
theorem unwrap_round_trip_and_abort (D : Type) [DomainTrait D] :
    (∀ d : D, Error.unwrap (Error.Domain d) = Except.ok d) ∧
    (∀ f : Fault, Error.unwrap_fault (D := D) (Error.Fault f) = Except.ok f) ∧
    (∀ f : Fault, Error.unwrap (D := D) (Error.Fault f) =
      Except.error
        (unwrap_failed "called `Error::unwrap()` on an `Fault` value" (Fault.debug f))) ∧
    (∀ d : D, Error.unwrap_fault (Error.Domain d) =
      Except.error
        (unwrap_failed "called `Error::unwrap_err()` on an `Domain` value" (Domain.debug d))) := by
  exact ⟨fun _ => rfl, fun _ => rfl, fun _ => rfl, fun _ => rfl⟩

/-- C7: every Fault built by a forced constructor or combinator
(`Fault::new_force`, `or_fault_force`, `or_fault_no_source_force`,
`ok_or_fault_force`) observes backtrace status `Captured`; every Fault
built by the plain path (`Fault::new`, `or_fault`, `or_fault_no_source`,
`ok_or_fault`) observes `Disabled`; and the Fault produced by `or_fault`
(the spec's `escalate_with_cause`) carries the original error as its
source, which downcasts at the original's type tag back to a value equal
to it. -/
theorem fault_backtrace_status_by_construction :
    (Fault.new.backtrace.status = BacktraceStatus.Disabled) ∧
    (Fault.new_force.backtrace.status = BacktraceStatus.Captured) ∧
    (∀ (S : Type) (s : S), or_fault_no_source (T := Unit) (Except.error s) =
      Except.error Fault.new) ∧
    (∀ (S : Type) (s : S), or_fault_no_source_force (T := Unit) (Except.error s) =
      Except.error Fault.new_force) ∧
    (∀ x : DynError, or_fault (T := Unit) (Except.error x) =
      Except.error (Fault.with_source Fault.new x)) ∧
    (∀ x : DynError, or_fault_force (T := Unit) (Except.error x) =
      Except.error (Fault.with_source Fault.new_force x)) ∧
    (ok_or_fault (T := Unit) none = Except.error Fault.new) ∧
    (ok_or_fault_force (T := Unit) none = Except.error Fault.new_force) ∧
    (∀ x : DynError,
      (Fault.with_source Fault.new x).backtrace.status = BacktraceStatus.Disabled ∧
      (Fault.with_source Fault.new_force x).backtrace.status = BacktraceStatus.Captured ∧
      (Fault.with_source Fault.new x).source = some x ∧
      DynError.downcast x.ty x = some x) := by
  refine ⟨rfl, rfl, fun _ _ => rfl, fun _ _ => rfl, fun _ => rfl, fun _ => rfl, rfl, rfl, ?_⟩
  intro x
  refine ⟨rfl, rfl, rfl, ?_⟩
  simp [DynError.downcast]

/-- C1: when the immediately held source of an Error is absent or its
concrete type differs from the closure's parameter type `S` — including
when a type-`S` cause sits deeper in the causal chain but not
immediately — `try_map_on_source` returns the original Error completely
unchanged (same variant, context and source) and does not panic. -/
theorem try_map_on_source_nonmatching_unchanged {T D : Type} [DomainTrait D]
    (sTag : Nat) (op : DynError → Error D) (e : Error D)
    (h : ∀ s, Error.immediate_source e = some s → s.ty ≠ sTag) :
    try_map_on_source (T := T) sTag op (Except.error e) = some (Except.error e) := by
  cases e with
  | Domain d =>
      cases hs : Domain.source d with
      | none => simp [try_map_on_source, hs]
      | some s =>
          have hty : s.ty ≠ sTag := h s (by simpa [Error.immediate_source] using hs)
          simp [try_map_on_source, hs, DynError.is, hty]
  | Fault f =>
      cases hs : f.source with
      | none => simp [try_map_on_source, hs]
      | some s =>
          have hty : s.ty ≠ sTag := h s (by simpa [Error.immediate_source] using hs)
          simp [try_map_on_source, hs, DynError.is, hty]

def w1_inner : DynError := DynError.mk 7 "inner" "Inner" none

def w1_outer : DynError := DynError.mk 6 "outer" "Outer" (some w1_inner)

def w1_op : DynError → Error DomainError := fun _ => Error.Fault Fault.new

def w1_err : Error DomainError := Error.Fault (Fault.with_source Fault.new w1_outer)

/-- Witness for C1 at a concrete input: an `Error::Fault` whose
immediate source has tag 6 while a tag-7 cause sits one level deeper;
matching against type tag 7 leaves the Error unchanged. -/
theorem try_map_on_source_nonmatching_unchanged_witness :
    try_map_on_source (T := Unit) 7 w1_op (Except.error w1_err) =
      some (Except.error w1_err) := by
  refine try_map_on_source_nonmatching_unchanged 7 w1_op w1_err ?_
  intro s hs
  simp [w1_err, Error.immediate_source, Fault.with_source, Fault.new] at hs
  subst hs
  simp [w1_outer, DynError.ty]

/-- C2: when the immediately held source of an Error (over the crate's
concrete `Domain` type `DomainError`) has the closure's parameter type
`S`, `try_map_on_source` surrenders that source, applies the closure to
it exactly once, and returns the closure's result (converted into
`Error`) in place of the original container — the old wrapper, its
context and trace are discarded, so the result is exactly `op` applied
to the extracted source. -/
theorem try_map_on_source_matching_consumes {T : Type}
    (sTag : Nat) (op : DynError → Error DomainError) (e : Error DomainError)
    (s : DynError) (h1 : Error.immediate_source e = some s) (h2 : s.ty = sTag) :
    try_map_on_source (T := T) sTag op (Except.error e) =
      some (Except.error (op s)) := by
  cases e with
  | Domain d =>
      have hs : d.source = some s := by
        simpa [Error.immediate_source, domain_source_eq] using h1
      simp [try_map_on_source, domain_source_eq, domain_into_source_eq, hs,
        DynError.is, DynError.downcast, h2]
  | Fault f =>
      have hs : f.source = some s := by
        simpa [Error.immediate_source] using h1
      simp [try_map_on_source, hs, DynError.is, DynError.downcast, h2]

def w2_src : DynError := DynError.mk 7 "inner" "Inner" none

def w2_op : DynError → Error DomainError := fun s =>
  Error.Domain (DomainError.mk (ExitError.new s.disp 3) none)

def w2_err : Error DomainError :=
  Error.Domain
    (DomainError.mk ((ExitError.new "msg" 1).with_context "old ctx") (some w2_src))

/-- Witness for C2 at a concrete input: an `Error::Domain` holding a
tag-7 source; matching against tag 7 yields exactly the closure's result
on that source. -/
theorem try_map_on_source_matching_consumes_witness :
    try_map_on_source (T := Unit) 7 w2_op (Except.error w2_err) =
      some (Except.error (w2_op w2_src)) := by
  refine try_map_on_source_matching_consumes 7 w2_op w2_err w2_src ?_ ?_
  · rfl
  · rfl

/-- C3: `map_err_or_fault` applied to `Ok(v)` returns `Ok(v)` unchanged;
applied to `Err(X)` it yields the `Domain` variant whenever the
classifier returns `Ok` of a Domain-eligible value (one whose
`Into<Error>` conversion lands in the `Domain` variant), and when the
classifier gives `X` back as `Err` it yields an `Error::Fault` whose
source is the original `X`, so downcasting that source at `X`'s type tag
succeeds and is equal to `X`. -/
theorem map_err_or_fault_classifies_or_escalates {T E D : Type} [Domain D]
    (intoE : E → Error D) (op : DynError → Except DynError E)
    (hdom : ∀ y : E, (intoE y).is_domain = true) :
    (∀ v : T, map_err_or_fault intoE op (Except.ok v) = Except.ok v) ∧
    (∀ (x : DynError) (d : E), op x = Except.ok d →
      map_err_or_fault (T := T) intoE op (Except.error x) = Except.error (intoE d) ∧
      (intoE d).is_domain = true) ∧
    (∀ x : DynError, op x = Except.error x →
      map_err_or_fault (T := T) intoE op (Except.error x) =
        Except.error (Error.Fault (Fault.with_source Fault.new x)) ∧
      (Fault.with_source Fault.new x).source = some x ∧
      DynError.downcast x.ty x = some x) := by
  refine ⟨fun _ => rfl, ?_, ?_⟩
  · intro x d hx
    refine ⟨?_, hdom d⟩
    simp [map_err_or_fault, hx]
  · intro x hx
    refine ⟨?_, rfl, ?_⟩
    · simp [map_err_or_fault, hx]
    · simp [DynError.downcast]

def w3_true : DynError := DynError.mk 5 "true" "MyError(true)" none

def w3_false : DynError := DynError.mk 5 "false" "MyError(false)" none

def w3_op : DynError → Except DynError ExitError := fun x =>
  if x.disp == "true" then Except.ok (ExitError.new "" 0) else Except.error x

/-- Witness for C3 at concrete inputs mirroring the crate's own test:
the classifier accepts `MyError(true)` giving `Error::Domain` and
rejects `MyError(false)` giving an `Error::Fault` carrying it as
source. -/
theorem map_err_or_fault_classifies_or_escalates_witness :
    map_err_or_fault (T := Unit) ExitError.intoErr w3_op (Except.error w3_true) =
      Except.error (ExitError.intoErr (ExitError.new "" 0)) ∧
    map_err_or_fault (T := Unit) ExitError.intoErr w3_op (Except.error w3_false) =
      Except.error (Error.Fault (Fault.with_source Fault.new w3_false)) := by
  have h := map_err_or_fault_classifies_or_escalates (T := Unit)
    ExitError.intoErr w3_op (fun _ => rfl)
  exact ⟨(h.2.1 w3_true (ExitError.new "" 0) rfl).1, (h.2.2 w3_false rfl).1⟩

/-- The trace section of the spec's render contract: the backtrace text
(with its separator), present only when the status is `Captured`. -/
def trace_section (f : Fault) : String :=
  match f.backtrace.status with
  | BacktraceStatus.Captured => f.backtrace.text ++ "\n ----------------------- \n\n"
  | _ => ""

/-- The context section of the spec's render contract:
`Context: <text>`, present only when a context is set. -/
def context_section (f : Fault) : String :=
  match f.context with
  | some c => "Context: " ++ c ++ "\n"
  | none => ""

/-- The source section of the spec's render contract: the cause's
description together with its full causal chain, present only when a
source is set. -/
def source_section (f : Fault) : String :=
  match f.source with
  | some s => "Source: " ++ errors_chain_debug s ++ ", " ++ s.disp ++ "\n"
  | none => ""

/-- C8: the rendered display of every Fault is the concatenation, in
this exact order, of the trace section, the context section and the
source section; each section is completely empty when its datum is
absent (no placeholder), and when present it consists of the backtrace
text, `Context: <text>`, resp. the cause's causal-chain debug plus its
description. -/
theorem fault_display_render_contract :
    ∀ f : Fault,
      Fault.display f = trace_section f ++ context_section f ++ source_section f ∧
      (f.backtrace.status ≠ BacktraceStatus.Captured → trace_section f = "") ∧
      (f.backtrace.status = BacktraceStatus.Captured →
        trace_section f = f.backtrace.text ++ "\n ----------------------- \n\n") ∧
      (f.context = none → context_section f = "") ∧
      (∀ c, f.context = some c → context_section f = "Context: " ++ c ++ "\n") ∧
      (f.source = none → source_section f = "") ∧
      (∀ s, f.source = some s →
        source_section f = "Source: " ++ errors_chain_debug s ++ ", " ++ s.disp ++ "\n") := by
  intro f
  refine ⟨?_, ?_, ?_, ?_, ?_, ?_, ?_⟩
  · simp [Fault.display, trace_section, context_section, source_section, String.append_assoc]
  · intro h
    cases hb : f.backtrace.status with
    | Disabled => simp [trace_section, hb]
    | Captured => exact absurd hb h
  · intro h
    simp [trace_section, h]
  · intro h
    simp [context_section, h]
  · intro c h
    simp [context_section, h]
  · intro h
    simp [source_section, h]
  · intro s h
    simp [source_section, h]

def w8_fault : Fault :=
  Fault.with_context
    (Fault.with_source (Fault.mk none (Backtrace.mk BacktraceStatus.Captured "bt") none) w1_inner)
    "ctx"

/-- Witness for C8 at a concrete Fault with a captured backtrace, a
context and a source: its display is the concatenation of the three
sections. -/
theorem fault_display_render_contract_witness :
    Fault.display w8_fault =
      trace_section w8_fault ++ context_section w8_fault ++ source_section w8_fault ∧
    trace_section w8_fault = "bt" ++ "\n ----------------------- \n\n" := by
  have h := fault_display_render_contract w8_fault
  exact ⟨h.1, h.2.2.1 rfl⟩

/-- C9: `Error::downcast_source` (the spec's consuming `extract_cause`)
on every Error (over the crate's concrete `Domain` type `DomainError`)
whose immediately held source is set extracts exactly that source: on
the `Domain` case the value surrendered by `into_source`, on the `Fault`
case the `Fault`'s own source field, and subjects it to the requested
downcast; no panic occurs. -/
theorem downcast_source_extracts_immediate_source :
    ∀ (e : Error DomainError) (s : DynError) (tag : Nat),
      Error.immediate_source e = some s →
      Error.downcast_source tag e = some (DynError.downcastE tag s) := by
  intro e s tag h
  cases e with
  | Domain d =>
      have hs : d.source = some s := by
        simpa [Error.immediate_source, domain_source_eq] using h
      simp [Error.downcast_source, domain_source_eq, domain_into_source_eq, hs]
  | Fault f =>
      have hs : f.source = some s := by
        simpa [Error.immediate_source] using h
      simp [Error.downcast_source, hs]

/-- Witness for C9 at a concrete input: a `Domain` Error holding a tag-7
source, downcast at tag 7 extracts exactly that source. -/
theorem downcast_source_extracts_immediate_source_witness :
    Error.downcast_source 7 w2_err = some (DynError.downcastE 7 w2_src) ∧
    DynError.downcastE 7 w2_src = Except.ok w2_src := by
  refine ⟨downcast_source_extracts_immediate_source w2_err w2_src 7 rfl, ?_⟩
  simp [DynError.downcastE, w2_src, DynError.ty]

/-- C10: the `StdError::source` implementation of `Error` never returns
`None`: for every Error value over any Domain type, it returns the inner
value's source when one is set, and the inner `Domain` value or `Fault`
itself (as a boxed `dyn Error`) when none is — callers walking the chain
always find at least one element behind an Error. -/
theorem error_source_std_never_none (D : Type) [DomainTrait D] :
    ∀ e : Error D,
      (Error.sourceStd e).isSome = true ∧
      (∀ s, Error.immediate_source e = some s → Error.sourceStd e = some s) ∧
      (Error.immediate_source e = none →
        Error.sourceStd e = some (match e with
          | Error.Domain d => Domain.toDyn d
          | Error.Fault f => Fault.toDyn f)) := by
  intro e
  cases e with
  | Domain d =>
      refine ⟨?_, ?_, ?_⟩
      · cases hs : Domain.source d with
        | none => simp [Error.sourceStd, hs]
        | some s => simp [Error.sourceStd, hs]
      · intro s h
        have hs : Domain.source d = some s := by
          simpa [Error.immediate_source] using h
        simp [Error.sourceStd, hs]
      · intro h
        have hs : Domain.source d = none := by
          simpa [Error.immediate_source] using h
        simp [Error.sourceStd, hs]
  | Fault f =>
      refine ⟨?_, ?_, ?_⟩
      · cases hs : f.source with
        | none => simp [Error.sourceStd, hs]
        | some s => simp [Error.sourceStd, hs]
      · intro s h
        have hs : f.source = some s := by
          simpa [Error.immediate_source] using h
        simp [Error.sourceStd, hs]
      · intro h
        have hs : f.source = none := by
          simpa [Error.immediate_source] using h
        simp [Error.sourceStd, hs]

/-- Witness for C10 at concrete inputs: a sourceless `Fault` Error
yields the boxed `Fault` itself, and a `Domain` Error with a source
yields that source. -/
theorem error_source_std_never_none_witness :
    Error.sourceStd (D := DomainError) (Error.Fault Fault.new) =
      some (Fault.toDyn Fault.new) ∧
    Error.sourceStd w2_err = some w2_src := by
  refine ⟨?_, ?_⟩
  · exact (error_source_std_never_none DomainError (Error.Fault Fault.new)).2.2 rfl
  · exact (error_source_std_never_none DomainError w2_err).2.1 w2_src rfl
